import Mathlib

/-!
Verification of the context-translator core against its specification.

The development shallowly embeds the two core subsystems of the backend
(`src/backend/app/cache.py` and `src/backend/app/llm_client.py`) together
with the request sanitization helpers (`src/backend/app/validation.py`):

* Python strings are `String`/`List Char`; Python `str.strip` is modelled by
  `pyStrip` over the Python whitespace set.
* `hashlib.sha256(...).hexdigest()` is embedded as a full executable SHA-256
  over the UTF-8 bytes of the input.
* the sqlite `translations` table is an association list keyed by the hash
  column (the primary key), and each `aiosqlite` operation of
  `TranslationCache` becomes an explicit state-passing function returning
  `Except` for the `RuntimeError` raised on an uninitialized handle.
* `httpx` effects are modelled by an attempt-outcome oracle `Nat → HttpAttempt`
  and the retry loop of `OpenAICompatibleClient.translate` by a fuel-indexed
  recursion that records the attempts made and the backoff waits performed.
-/

namespace ContextTranslator

/-! ## Python string primitives -/

/-- Characters stripped by Python `str.strip()` (ASCII whitespace plus the
Unicode space separators recognised by `str.isspace`). -/
def pyWhitespace (c : Char) : Bool :=
  c.toNat ∈ [0x09, 0x0a, 0x0b, 0x0c, 0x0d, 0x20, 0x1c, 0x1d, 0x1e, 0x1f,
    0x85, 0xa0, 0x1680, 0x2000, 0x2001, 0x2002, 0x2003, 0x2004, 0x2005,
    0x2006, 0x2007, 0x2008, 0x2009, 0x200a, 0x2028, 0x2029, 0x202f, 0x205f,
    0x3000]

/-- Python `str.strip()` on a character list. -/
def pyStripList (l : List Char) : List Char :=
  ((l.dropWhile pyWhitespace).reverse.dropWhile pyWhitespace).reverse

/-- Python `str.strip()`. -/
def pyStrip (s : String) : String := ⟨pyStripList s.data⟩

/-- The double-quote character. -/
def dq : Char := Char.ofNat 34

/-- The single-quote character. -/
def sq : Char := Char.ofNat 39

/-! ## SHA-256 (`hashlib.sha256(...).hexdigest()`)

An executable SHA-256 over byte lists, used by `_generate_key` in
`src/backend/app/cache.py`. Words are `Nat` reduced mod `2^32`. -/

/-- Reduce to a 32-bit word. -/
def w32 (n : Nat) : Nat := n % 4294967296

/-- Right rotation of a 32-bit word. -/
def rotr32 (n x : Nat) : Nat := w32 ((x >>> n) ||| (x <<< (32 - n)))

/-- Bitwise complement of a 32-bit word. -/
def not32 (x : Nat) : Nat := 4294967295 - x

/-- The 64 SHA-256 round constants, written in decimal. -/
def sha256K : List Nat :=
  [1116352408, 1899447441, 3049323471, 3921009573, 961987163,
   1508970993, 2453635748, 2870763221, 3624381080, 310598401,
   607225278, 1426881987, 1925078388, 2162078206, 2614888103,
   3248222580, 3835390401, 4022224774, 264347078, 604807628,
   770255983, 1249150122, 1555081692, 1996064986, 2554220882,
   2821834349, 2952996808, 3210313671, 3336571891, 3584528711,
   113926993, 338241895, 666307205, 773529912, 1294757372,
   1396182291, 1695183700, 1986661051, 2177026350, 2456956037,
   2730485921, 2820302411, 3259730800, 3345764771, 3516065817,
   3600352804, 4094571909, 275423344, 430227734, 506948616,
   659060556, 883997877, 958139571, 1322822218, 1537002063,
   1747873779, 1955562222, 2024104815, 2227730452, 2361852424,
   2428436474, 2756734187, 3204031479, 3329325298]

/-- SHA-256 working state: eight 32-bit words. -/
structure Sha256State where
  a : Nat
  b : Nat
  c : Nat
  d : Nat
  e : Nat
  f : Nat
  g : Nat
  h : Nat
deriving Repr, DecidableEq

/-- The SHA-256 initial hash value, written in decimal. -/
def sha256H0 : Sha256State :=
  ⟨1779033703, 3144134277, 1013904242, 2773480762,
   1359893119, 2600822924, 528734635, 1541459225⟩

/-- Big-endian 4-byte groups to 32-bit words. -/
def toWordsBE : List Nat → List Nat
  | b0 :: b1 :: b2 :: b3 :: rest =>
      (((b0 * 256 + b1) * 256 + b2) * 256 + b3) :: toWordsBE rest
  | _ => []

/-- The 8-byte big-endian encoding of the bit length. -/
def lenBytes (n : Nat) : List Nat :=
  (List.range 8).map (fun i => (n >>> (8 * (7 - i))) % 256)

/-- SHA-256 message padding: `0x80`, zeros to 56 mod 64, 64-bit bit length. -/
def sha256Pad (msg : List Nat) : List Nat :=
  let L := msg.length
  let z := (119 - L % 64) % 64
  msg ++ 0x80 :: List.replicate z 0 ++ lenBytes (8 * L)

/-- Split a list into successive chunks of 64 elements. The structural
`fuel` starts at the length of the list, which bounds the number of
nonempty chunks, so the recursion never runs dry. -/
def chunks64F : Nat → List Nat → List (List Nat)
  | 0, _ => []
  | _, [] => []
  | fuel + 1, l => l.take 64 :: chunks64F fuel (l.drop 64)

/-- Split a list into successive chunks of 64 elements. -/
def chunks64 (l : List Nat) : List (List Nat) := chunks64F l.length l

/-- Expand the 16 block words into the 64-word message schedule. -/
def sha256Schedule (w0 : Array Nat) : Array Nat :=
  (List.range 48).foldl
    (fun w _ =>
      let i := w.size
      let x15 := w.getD (i - 15) 0
      let x2 := w.getD (i - 2) 0
      let s0 := (rotr32 7 x15) ^^^ (rotr32 18 x15) ^^^ (x15 >>> 3)
      let s1 := (rotr32 17 x2) ^^^ (rotr32 19 x2) ^^^ (x2 >>> 10)
      w.push (w32 (w.getD (i - 16) 0 + s0 + w.getD (i - 7) 0 + s1)))
    w0

/-- One SHA-256 compression round. -/
def sha256Round (k w : Nat) (st : Sha256State) : Sha256State :=
  let s1 := (rotr32 6 st.e) ^^^ (rotr32 11 st.e) ^^^ (rotr32 25 st.e)
  let ch := (st.e &&& st.f) ^^^ (not32 st.e &&& st.g)
  let t1 := w32 (st.h + s1 + ch + k + w)
  let s0 := (rotr32 2 st.a) ^^^ (rotr32 13 st.a) ^^^ (rotr32 22 st.a)
  let maj := (st.a &&& st.b) ^^^ (st.a &&& st.c) ^^^ (st.b &&& st.c)
  let t2 := w32 (s0 + maj)
  ⟨w32 (t1 + t2), st.a, st.b, st.c, w32 (st.d + t1), st.e, st.f, st.g⟩

/-- Compress one 64-byte block into the running hash state. -/
def sha256Compress (st : Sha256State) (block : List Nat) : Sha256State :=
  let ws := sha256Schedule (toWordsBE block).toArray
  let r := (List.range 64).foldl
    (fun s t => sha256Round (sha256K.getD t 0) (ws.getD t 0) s) st
  ⟨w32 (st.a + r.a), w32 (st.b + r.b), w32 (st.c + r.c), w32 (st.d + r.d),
   w32 (st.e + r.e), w32 (st.f + r.f), w32 (st.g + r.g), w32 (st.h + r.h)⟩

/-- Lower-case hex character of a nibble. -/
def hexChar (n : Nat) : Char :=
  if n < 10 then Char.ofNat (48 + n) else Char.ofNat (87 + n)

/-- Fixed-width 8-character lower-case hex of a 32-bit word. -/
def word32Hex (x : Nat) : List Char :=
  (List.range 8).map (fun i => hexChar ((x >>> (28 - 4 * i)) % 16))

/-- UTF-8 encoding of one character (Python `str.encode()`). -/
def utf8Bytes (c : Char) : List Nat :=
  let n := c.toNat
  if n < 0x80 then [n]
  else if n < 0x800 then [0xc0 + n / 64, 0x80 + n % 64]
  else if n < 0x10000 then
    [0xe0 + n / 4096, 0x80 + (n / 64) % 64, 0x80 + n % 64]
  else
    [0xf0 + n / 262144, 0x80 + (n / 4096) % 64, 0x80 + (n / 64) % 64,
     0x80 + n % 64]

/-- UTF-8 bytes of a string (Python `str.encode()`). -/
def strBytes (s : String) : List Nat := (s.data.map utf8Bytes).flatten

/-- SHA-256 digest of the byte list. -/
def sha256Digest (msg : List Nat) : Sha256State :=
  (chunks64 (sha256Pad msg)).foldl sha256Compress sha256H0

/-- `hashlib.sha256(s.encode()).hexdigest()`. -/
def sha256Hex (s : String) : String :=
  let d := sha256Digest (strBytes s)
  ⟨word32Hex d.a ++ word32Hex d.b ++ word32Hex d.c ++ word32Hex d.d ++
   word32Hex d.e ++ word32Hex d.f ++ word32Hex d.g ++ word32Hex d.h⟩

/-! ## TranslationCache (`src/backend/app/cache.py`)

The sqlite `translations` table is an association list from the `hash`
primary-key column to the remaining columns. `self.db` being `None` before
`initialize()` is the `none` case of the `db` field; the `RuntimeError`
raised on it becomes `CacheError.runtimeError`. `time.time()` and the
filesystem (`Path.exists` / `stat().st_size` in `get_size`) enter as
explicit parameters. -/

/-- One row of the `translations` table, minus the `hash` primary key. -/
structure CacheRow where
  text : String
  source_lang : String
  target_lang : String
  translation : String
  timestamp : Int
deriving Repr, DecidableEq

/-- The `RuntimeError("Database not initialized")` of the cache methods. -/
inductive CacheError where
  | runtimeError (msg : String)
deriving Repr, DecidableEq

/-- The rows of the `translations` table. -/
abbrev CacheDb := List (String × CacheRow)

/-- `TranslationCache`: `db` is `none` before `initialize()` completes and
`some rows` afterwards. -/
structure TranslationCache where
  db : Option CacheDb
deriving Repr, DecidableEq

/-- First row whose `hash` column equals `key` (`SELECT ... WHERE hash = ?`).
The primary key keeps the column unique in the real table. -/
def dbFind (rows : CacheDb) (key : String) : Option CacheRow :=
  (rows.find? (fun p => p.1 == key)).map (·.2)

/-- `_generate_key`: SHA-256 hex digest of
`f"{text}|{source_lang}|{target_lang}|{context}"` with
`context = context_text or ""`. -/
def TranslationCache.generate_key (text source_lang target_lang : String)
    (context_text : Option String) : String :=
  let context := match context_text with
    | none => ""
    | some s => s
  sha256Hex (text ++ "|" ++ source_lang ++ "|" ++ target_lang ++ "|" ++ context)

/-- Follows the spec wording of §4.1: normalize a missing context to the
empty string, build the delimited composite
`text + "|" + source_lang + "|" + target_lang + "|" + normalized_context`,
and apply the hex-encoded 256-bit digest. Stated separately from
`TranslationCache.generate_key` so the refinement can be checked. -/
def specDeriveKey (text source_lang target_lang : String)
    (context : Option String) : String :=
  let normalized := context.getD ""
  sha256Hex (text ++ "|" ++ source_lang ++ "|" ++ target_lang ++ "|" ++ normalized)

/-- `TranslationCache.get`: raises when uninitialized, otherwise a single-row
lookup returning the `translation` column, `none` on a miss. -/
def TranslationCache.get (c : TranslationCache) (key : String) :
    Except CacheError (Option String) :=
  match c.db with
  | none => .error (.runtimeError "Database not initialized")
  | some rows => .ok ((dbFind rows key).map (·.translation))

/-- `TranslationCache.set`: raises when uninitialized, otherwise
`INSERT OR REPLACE` of the whole row with `timestamp = int(time.time())`,
passed here as `now`. -/
def TranslationCache.set (c : TranslationCache) (key text source_lang
    target_lang translation : String) (now : Int) :
    Except CacheError TranslationCache :=
  match c.db with
  | none => .error (.runtimeError "Database not initialized")
  | some rows =>
      .ok ⟨some ((key, ⟨text, source_lang, target_lang, translation, now⟩) ::
        rows.filter (fun p => p.1 ≠ key))⟩

/-- The `DELETE FROM translations WHERE timestamp < ?` of `clear_expired`. -/
def clearExpiredRows (rows : CacheDb) (cutoff : Int) : CacheDb :=
  rows.filter (fun p => ¬ p.2.timestamp < cutoff)

/-- `TranslationCache.clear_expired`: raises when uninitialized, otherwise
deletes every row with `timestamp < now - ttl_days * 24 * 60 * 60`. -/
def TranslationCache.clear_expired (c : TranslationCache) (ttl_days : Int)
    (now : Int) : Except CacheError TranslationCache :=
  match c.db with
  | none => .error (.runtimeError "Database not initialized")
  | some rows => .ok ⟨some (clearExpiredRows rows (now - ttl_days * 24 * 60 * 60))⟩

/-- `TranslationCache.get_size`: reads only the filesystem (`Path.exists`,
`stat().st_size`, both passed as parameters); there is no initialization
check in the source, so it never raises. -/
def TranslationCache.get_size (_c : TranslationCache) (fileExists : Bool)
    (fileSize : Nat) : Except CacheError Nat :=
  .ok (if fileExists then fileSize else 0)

/-- Modelled from the spec: `TranslationCache.clear` is called by the
`/cache/clear` endpoint in `src/backend/app/main.py` but is absent from
`src/backend/app/cache.py` in this tree. Spec §4.2: "`clear()`: removes all
entries unconditionally (administrative operation)"; §4.2 failure semantics
make any pre-`initialize()` call fail fast like the other operations. -/
def TranslationCache.clear (c : TranslationCache) :
    Except CacheError TranslationCache :=
  match c.db with
  | none => .error (.runtimeError "Database not initialized")
  | some _ => .ok ⟨some []⟩

/-- The `/cache/clear` endpoint (`clear_cache` in `src/backend/app/main.py`):
awaits `cache.clear()` and answers `{"status": "cleared"}`. -/
def clear_cache (c : TranslationCache) :
    Except CacheError (TranslationCache × String) :=
  (c.clear).map (fun c2 => (c2, "cleared"))

/-! ## Validation (`src/backend/app/validation.py`)

`ValueError` becomes `Except String`; the `isinstance` checks are typed away
by the embedding. `str.isprintable` is modelled on the control and separator
categories its Python definition excludes. -/

/-- `MAX_CONTEXT_LENGTH` from `validation.py`. -/
def MAX_CONTEXT_LENGTH : Nat := 1000

/-- `MAX_TEXT_LENGTH` from `validation.py`. -/
def MAX_TEXT_LENGTH : Nat := 5000

/-- Python `str.isprintable` for one character: false on control characters
(`Cc`) and on separator characters other than the plain space. -/
def pyIsPrintable (c : Char) : Bool :=
  ¬ (c.toNat < 0x20 ∨ (0x7f ≤ c.toNat ∧ c.toNat ≤ 0x9f) ∨
     (pyWhitespace c ∧ c.toNat ≠ 0x20))

/-- The character filter of `sanitize_text_input`:
`ch.isprintable() or ch in "\n\t"`. -/
def keepChar (c : Char) : Bool := pyIsPrintable c || c == '\n' || c == '\t'

/-- `re.sub(r"\s+", " ", ...)`: collapse each maximal whitespace run to one
space. `prevWs` records whether the previous character was part of a
whitespace run already replaced. -/
def collapseWsGo (prevWs : Bool) : List Char → List Char
  | [] => []
  | c :: rest =>
    if pyWhitespace c then
      if prevWs then collapseWsGo true rest
      else ' ' :: collapseWsGo true rest
    else c :: collapseWsGo false rest

/-- `re.sub(r"\s+", " ", ...)`. -/
def collapseWs (l : List Char) : List Char := collapseWsGo false l

/-- The cleaned text computed inside `sanitize_text_input`: control-character
removal, whitespace collapsing, then strip. -/
def sanitizedChars (text : String) : List Char :=
  pyStripList (collapseWs (text.data.filter keepChar))

/-- `sanitize_text_input`: empty input, empty-after-sanitization and
over-length inputs raise `ValueError`. -/
def sanitize_text_input (text : String) (max_length : Nat) :
    Except String String :=
  if text = "" then .error "Text must be a non-empty string"
  else
    let cleaned := sanitizedChars text
    if cleaned = [] then .error "Text is empty after sanitization"
    else if cleaned.length > max_length then
      .error "Text exceeds maximum length"
    else .ok ⟨cleaned⟩

/-- `sanitize_context_input`: `None` or blank context becomes `None`; a
`ValueError` from `sanitize_text_input` (with `MAX_CONTEXT_LENGTH`) is
swallowed and also becomes `None`. -/
def sanitize_context_input (context : Option String) : Option String :=
  match context with
  | none => none
  | some c =>
    if pyStrip c = "" then none
    else
      match sanitize_text_input c MAX_CONTEXT_LENGTH with
      | .ok s => some s
      | .error _ => none

/-- ASCII letter (the regex class `[a-zA-Z]`). -/
def isAsciiAlpha (c : Char) : Bool :=
  (65 ≤ c.toNat ∧ c.toNat ≤ 90) ∨ (97 ≤ c.toNat ∧ c.toNat ≤ 122)

/-- The regex word class `\w`, modelled on its ASCII fragment
`[a-zA-Z0-9_]`. -/
def isWordChar (c : Char) : Bool :=
  isAsciiAlpha c || c.isDigit || c == '_'

/-- `re.match(r"^[a-zA-Z][\w\s-]*$", ...)`: leading ASCII letter followed by
word characters, whitespace or hyphens (`$` before a trailing newline is
subsumed because `\s` matches the newline). -/
def matchLangCode (l : List Char) : Bool :=
  match l with
  | [] => false
  | c :: rest =>
      isAsciiAlpha c &&
      rest.all (fun x => isWordChar x || pyWhitespace x || x == '-')

/-- `validate_language_code`. -/
def validate_language_code (lang_code : String)
    (supported_languages : List String) : Except String Unit :=
  if lang_code = "" then .error "Language code must be a non-empty string"
  else if ¬ matchLangCode (pyStrip lang_code).data then
    .error "Invalid language code format"
  else if ¬ supported_languages.contains lang_code then
    .error "Unsupported language"
  else .ok ()

/-- `sanitize_translation_request`: sanitize the text, sanitize the context
(never raising), validate both language codes, reject identical languages. -/
def sanitize_translation_request (text source_lang target_lang : String)
    (context : Option String) (supported_languages : List String)
    (max_text_length : Nat) :
    Except String (String × String × String × Option String) :=
  match sanitize_text_input text max_text_length with
  | .error e => .error e
  | .ok sanitized_text =>
    let sanitized_context := sanitize_context_input context
    match validate_language_code source_lang supported_languages with
    | .error e => .error e
    | .ok _ =>
      match validate_language_code target_lang supported_languages with
      | .error e => .error e
      | .ok _ =>
        if source_lang = target_lang then
          .error "Source and target languages must be different"
        else .ok (sanitized_text, source_lang, target_lang, sanitized_context)

/-! ## ResponseNormalizer (`_clean_response` in `src/backend/app/llm_client.py`)

Each regex stage is embedded as a character-list scanner with the match
semantics of the Python `re` calls it models (leftmost match, the documented
greediness, `re.IGNORECASE` via lower-casing, `^`/`\b` anchors made
explicit). The length sanity check of the source only logs, so it has no
counterpart here. -/

/-- Case-insensitive character comparison (`re.IGNORECASE`). -/
def charCI (a b : Char) : Bool := a.toLower == b.toLower

/-- Case-insensitive prefix test. -/
def isPrefixCI : List Char → List Char → Bool
  | [], _ => true
  | _ :: _, [] => false
  | p :: ps, c :: cs => charCI p c && isPrefixCI ps cs

/-- Leftmost case-insensitive occurrence of `pat`: returns the text before
the match and the text after it. -/
def splitFirstCI (pat : List Char) : List Char → Option (List Char × List Char)
  | [] => none
  | c :: rest =>
    if isPrefixCI pat (c :: rest) then some ([], (c :: rest).drop pat.length)
    else
      match splitFirstCI pat rest with
      | some (pre, post) => some (c :: pre, post)
      | none => none

/-- The literal `<think>`. -/
def thinkOpen : List Char := "<think>".data

/-- The literal `</think>`. -/
def thinkClose : List Char := "</think>".data

/-- `re.sub(r'<think>.*?</think>', '', cleaned, flags=re.DOTALL |
re.IGNORECASE)`: repeatedly delete the leftmost `<think>` together with the
shortest span up to the next `</think>`. Each deletion removes at least the
two delimiters, so the structural `fuel`, started at the length of the
list, never runs dry. -/
def removeThinkSpansF : Nat → List Char → List Char
  | 0, l => l
  | fuel + 1, l =>
    match splitFirstCI thinkOpen l with
    | none => l
    | some (pre, post) =>
      match splitFirstCI thinkClose post with
      | none => l
      | some (_, post2) => pre ++ removeThinkSpansF fuel post2

/-- `re.sub(r'<think>.*?</think>', '', cleaned, flags=re.DOTALL |
re.IGNORECASE)`. -/
def removeThinkSpans (l : List Char) : List Char :=
  removeThinkSpansF l.length l

/-- `re.sub(r'<think>.*', '', cleaned, flags=re.IGNORECASE)`: delete every
`<think>` and the rest of its line (`.` does not cross newlines). The
structural `fuel` starts at the length of the list, which each deletion
strictly decreases. -/
def removeThinkToEolF : Nat → List Char → List Char
  | 0, l => l
  | fuel + 1, l =>
    match splitFirstCI thinkOpen l with
    | none => l
    | some (pre, post) =>
        pre ++ removeThinkToEolF fuel (post.dropWhile (fun c => ¬ c == '\n'))

/-- `re.sub(r'<think>.*', '', cleaned, flags=re.IGNORECASE)`. -/
def removeThinkToEol (l : List Char) : List Char :=
  removeThinkToEolF l.length l

/-- Rest of the input after the first `>` (the `[^>]*>` tail of the tag
regex). -/
def afterGt : List Char → Option (List Char)
  | [] => none
  | c :: t => if c == '>' then some t else afterGt t

/-- The `[a-zA-Z][^>]*>` body of the tag regex: an ASCII letter, then
everything up to the first `>`. -/
def parseTagBody : List Char → Option (List Char)
  | [] => none
  | c :: t => if isAsciiAlpha c then afterGt t else none

/-- One match of `</?[a-zA-Z][^>]*>` starting right after a `<`: optional
slash, then the tag body. -/
def parseTag : List Char → Option (List Char)
  | [] => none
  | c :: t => if c == '/' then parseTagBody t else parseTagBody (c :: t)

/-- `re.sub(r'</?[a-zA-Z][^>]*>', '', cleaned)`: delete every HTML/XML-like
tag. A consumed tag is strictly shorter than the remaining input, so the
structural `fuel`, started at the length of the list, never runs dry. -/
def stripTagsF : Nat → List Char → List Char
  | 0, l => l
  | _ + 1, [] => []
  | fuel + 1, c :: rest =>
    if c == '<' then
      match parseTag rest with
      | some remainder => stripTagsF fuel remainder
      | none => c :: stripTagsF fuel rest
    else c :: stripTagsF fuel rest

/-- `re.sub(r'</?[a-zA-Z][^>]*>', '', cleaned)`. -/
def stripTags (l : List Char) : List Char := stripTagsF l.length l

/-- The alternatives of the verbose-prefix pattern
`^(?:okay|alright|sure|well|let me|i will|i'll)[,\s]`. -/
def verbosePrefixes : List (List Char) :=
  ["okay".data, "alright".data, "sure".data, "well".data, "let me".data,
   "i will".data, 'i' :: sq :: "ll".data]

/-- `re.search(r'^(?:...)[,\s]', cleaned, re.IGNORECASE)`: anchored at the
start, one alternative followed by a comma or whitespace. -/
def hasVerbosePrefix (l : List Char) : Bool :=
  verbosePrefixes.any (fun p =>
    isPrefixCI p l &&
    match (l.drop p.length).head? with
    | none => false
    | some c => c == ',' || pyWhitespace c)

/-- A quote character (`["\']` in the extraction regex). -/
def isQuoteChar (c : Char) : Bool := c == dq || c == sq

/-- `re.search(r'["\']([^"\']+)["\']', cleaned)`: leftmost quote character
followed by a nonempty run of non-quote characters and a closing quote
character (of either kind); returns the captured group. -/
def findQuotedSpan : List Char → Option (List Char)
  | [] => none
  | c :: rest =>
    if isQuoteChar c then
      let body := rest.takeWhile (fun x => ¬ isQuoteChar x)
      let after := rest.dropWhile (fun x => ¬ isQuoteChar x)
      if body ≠ [] ∧ after ≠ [] then some body
      else findQuotedSpan rest
    else findQuotedSpan rest

/-- Verbose-prefix extraction (stage 4): when the text opens with a
conversational filler, replace it by the first stripped quoted span when
that span is nonempty and at most twice the original length. -/
def verbosePrefixStage (cleaned orig : List Char) : List Char :=
  if hasVerbosePrefix cleaned then
    match findQuotedSpan cleaned with
    | some body =>
      let potential := pyStripList body
      if potential ≠ [] ∧ potential.length ≤ 2 * orig.length then potential
      else cleaned
    | none => cleaned
  else cleaned

/-- Python `s.startswith(c) and s.endswith(c)` for a one-character *c*. -/
def startsEndsWith (l : List Char) (c : Char) : Bool :=
  (l.head? == some c) && (l.getLast? == some c)

/-- Quote-symmetry correction (stage 5): the source strips one symmetric
layer of double- or single-quotes (then strips whitespace) unless the
*original* text both starts and ends with a double quote. -/
def quoteSymmetryStage (cleaned orig : List Char) : List Char :=
  let originalHasQuotes := startsEndsWith orig dq
  let hasAddedQuotes := startsEndsWith cleaned dq || startsEndsWith cleaned sq
  if ¬ originalHasQuotes ∧ hasAddedQuotes then
    pyStripList ((cleaned.drop 1).dropLast)
  else cleaned

/-- The explanation patterns searched anywhere in the text. -/
def explAnywhere : List (List Char) :=
  ["the translation is".data, "this means".data, "translates to".data,
   "refers to".data]

/-- The explanation patterns anchored at the start (`^explanation:`,
`^note:`, `^translation:`). -/
def explAnchored : List (List Char) :=
  ["explanation:".data, "note:".data, "translation:".data]

/-- Case-insensitive substring test. -/
def containsCI (pat l : List Char) : Bool := (splitFirstCI pat l).isSome

/-- `any(re.search(p, line) for p in explanation_patterns)`. -/
def matchesExplanation (l : List Char) : Bool :=
  explAnywhere.any (fun p => containsCI p l) ||
  explAnchored.any (fun p => isPrefixCI p l)

/-- The linking-word alternatives of `\b(is|means|refers to)\b`, in the
order the regex tries them. -/
def linkWords : List (List Char) :=
  ["is".data, "means".data, "refers to".data]

/-- One candidate match of `\b`*pat*`\b` at the current position: the
previous character (if any) must not be a word character, the pattern must
match case-insensitively, and the following character (if any) must not be
a word character. Returns the rest after the match. -/
def wordMatchAt (prev : Option Char) (l pat : List Char) :
    Option (List Char) :=
  let prevOk := match prev with
    | none => true
    | some c => ¬ isWordChar c
  if prevOk && isPrefixCI pat l then
    let rest := l.drop pat.length
    let nextOk := match rest.head? with
      | none => true
      | some c => ¬ isWordChar c
    if nextOk then some rest else none
  else none

/-- Leftmost match of `\b(is|means|refers to)\b` scanning left to right,
keeping track of the preceding character: returns the text before the match
and the text after it. -/
def findLinkWord (prev : Option Char) : List Char →
    Option (List Char × List Char)
  | [] => none
  | c :: rest =>
    match linkWords.findSome? (fun p => wordMatchAt prev (c :: rest) p) with
    | some after => some ([], after)
    | none =>
      match findLinkWord (some c) rest with
      | some (pre, after) => some (c :: pre, after)
      | none => none

/-- Explanation-pattern excision (stage 6): when an explanation pattern
occurs, `re.split(r"(?i)\b(is|means|refers to)\b", cleaned, maxsplit=1)`
and keep the stripped part before the linking word when nonempty. -/
def explanationExcise (cleaned : List Char) : List Char :=
  if matchesExplanation cleaned then
    match findLinkWord none cleaned with
    | some (pre, _) =>
      if pre.length > 0 then
        let potential := pyStripList pre
        if potential.length > 0 then potential else cleaned
      else cleaned
    | none =>
      if cleaned.length > 0 then
        let potential := pyStripList cleaned
        if potential.length > 0 then potential else cleaned
      else cleaned
  else cleaned

/-- Python `str.split("\n")`. -/
def splitLines : List Char → List (List Char)
  | [] => [[]]
  | c :: rest =>
    let r := splitLines rest
    if c == '\n' then [] :: r
    else match r with
      | ln :: rs => (c :: ln) :: rs
      | [] => [[c]]

/-- The line scan of stage 7: first stripped line that is nonempty and
matches no explanation pattern. -/
def pickLine : List (List Char) → Option (List Char)
  | [] => none
  | ln :: rest =>
    let line := pyStripList ln
    if line ≠ [] ∧ ¬ matchesExplanation line then some line
    else pickLine rest

/-- Multi-line selection (stage 7): with more than one line, replace the
text by the first qualifying stripped line, if any. -/
def multilineSelect (cleaned : List Char) : List Char :=
  let lines := splitLines cleaned
  if lines.length > 1 then
    match pickLine lines with
    | some line => line
    | none => cleaned
  else cleaned

/-- The `ValueError`s raised by `_clean_response`, all three signalling an
empty result (the `EmptyOutput` of the spec taxonomy). -/
inductive CleanError where
  | emptyOutput (msg : String)
deriving Repr, DecidableEq

/-- The working text after the initial `strip()` (stage 1). -/
def initialTrim (response_text : String) : List Char :=
  pyStripList response_text.data

/-- The working text after reasoning-markup and tag stripping and the
re-`strip()` (stage 3). -/
def afterTagStrip (response_text : String) : List Char :=
  pyStripList (stripTags (removeThinkToEol (removeThinkSpans
    (initialTrim response_text))))

/-- The working text after stages 4-7 and the final `strip()` (stage 8). -/
def finalCleaned (response_text original_text : String) : List Char :=
  pyStripList (multilineSelect (explanationExcise
    (quoteSymmetryStage
      (verbosePrefixStage (afterTagStrip response_text) original_text.data)
      original_text.data)))

/-- `_clean_response`: the staged pipeline, raising exactly at the three
empty checks of the source. -/
def cleanResponse (response_text original_text : String) :
    Except CleanError String :=
  if initialTrim response_text = [] then
    .error (.emptyOutput "Empty response from LLM")
  else if afterTagStrip response_text = [] then
    .error (.emptyOutput "Empty response after removing thinking tags")
  else if finalCleaned response_text original_text = [] then
    .error (.emptyOutput "Response cleaning resulted in empty translation")
  else .ok ⟨finalCleaned response_text original_text⟩

/-! ## InferenceClient (`OpenAICompatibleClient.translate`)

The `httpx` round-trip of each loop iteration is an oracle
`Nat → HttpAttempt` giving the outcome of the 0-indexed attempt. The loop
of the source becomes a fuel recursion (`fuel` = attempts still allowed);
the trace records the result, the number of attempts started, and the
backoff waits actually slept. -/

/-- `DEFAULT_MAX_RETRIES` from `llm_client.py`. -/
def DEFAULT_MAX_RETRIES : Nat := 3

/-- Outcome of one attempt: `httpx.TimeoutException`, an HTTP error status
raised by `raise_for_status`, a `KeyError`/`IndexError` on the payload, any
other exception, or a successful payload carrying the completion text. -/
inductive HttpAttempt where
  | timeout
  | httpStatus (code : Nat)
  | malformed
  | unexpected
  | success (content : String)
deriving Repr, DecidableEq

/-- The failures `translate` can raise: the terminal `ValueError` on an HTTP
error status, the terminal `ValueError` on a malformed payload, the
re-raised unexpected exception, a re-raised `_clean_response` error, and
the after-loop `ValueError` (`ExhaustedRetries`) chaining `last_error`. -/
inductive LLMError where
  | providerHttpError (code : Nat)
  | providerMalformed
  | unexpectedError
  | cleanFailed (e : CleanError)
  | exhaustedRetries (last_error : Option HttpAttempt)
deriving Repr, DecidableEq

/-- `_exponential_backoff`: sleep `min(2**attempt, 8)` seconds. -/
def exponentialBackoff (attempt : Nat) : Nat := min (2 ^ attempt) 8

/-- Decidable equality of `Except` results, for evaluating traces. -/
instance {ε α : Type} [DecidableEq ε] [DecidableEq α] :
    DecidableEq (Except ε α) := fun a b =>
  match a, b with
  | .ok x, .ok y =>
    if h : x = y then .isTrue (by rw [h]) else .isFalse (by simp [h])
  | .error x, .error y =>
    if h : x = y then .isTrue (by rw [h]) else .isFalse (by simp [h])
  | .ok _, .error _ => .isFalse (by simp)
  | .error _, .ok _ => .isFalse (by simp)

/-- The trace of one `translate` call. -/
structure TranslateTrace where
  result : Except LLMError String
  attemptsMade : Nat
  waits : List Nat
deriving Repr, DecidableEq

/-- The retry loop of `OpenAICompatibleClient.translate`. `i` is the current
0-indexed attempt, `fuel` the attempts still allowed (`max_retries - i`),
`last_error` mirrors the `last_error` variable. Only a timeout continues
the loop, sleeping `_exponential_backoff(i)` first unless this was the last
allowed attempt; the other exception arms raise immediately; exhausting the
loop raises the after-loop `ValueError` from `last_error`. -/
def translateGo (attemptFn : Nat → HttpAttempt) (original : String) :
    Nat → Nat → Option HttpAttempt → List Nat → TranslateTrace
  | 0, i, last_error, waits =>
      ⟨.error (.exhaustedRetries last_error), i, waits⟩
  | fuel + 1, i, _, waits =>
    match attemptFn i with
    | .success content =>
      match cleanResponse content original with
      | .ok t => ⟨.ok t, i + 1, waits⟩
      | .error e => ⟨.error (.cleanFailed e), i + 1, waits⟩
    | .timeout =>
      if 0 < fuel then
        translateGo attemptFn original fuel (i + 1) (some .timeout)
          (waits ++ [exponentialBackoff i])
      else
        translateGo attemptFn original fuel (i + 1) (some .timeout) waits
    | .httpStatus code => ⟨.error (.providerHttpError code), i + 1, waits⟩
    | .malformed => ⟨.error .providerMalformed, i + 1, waits⟩
    | .unexpected => ⟨.error .unexpectedError, i + 1, waits⟩

/-- `OpenAICompatibleClient.translate` with the transport effects abstracted
into `attemptFn`. -/
def clientTranslate (attemptFn : Nat → HttpAttempt) (original : String) :
    TranslateTrace :=
  translateGo attemptFn original DEFAULT_MAX_RETRIES 0 none []

/-! ## FallbackRouter (`FallbackLLMClient.translate`) -/

/-- The arguments of one router call. -/
structure TranslateArgs where
  text : String
  source_lang : String
  target_lang : String
  context : Option String
deriving Repr, DecidableEq

/-- Result of the router: primary success or fallback success pass the
translation through; with no fallback the primary error propagates
unchanged; with a failing fallback the combined `ValueError` carries both
underlying failures. -/
inductive RouterError where
  | primaryOnly (e : LLMError)
  | bothFailed (primary_error fallback_error : LLMError)
deriving Repr, DecidableEq

/-- `FallbackLLMClient.translate`: clients are functions from arguments to
an `Except` outcome; the fallback, when configured, is invoked once with
exactly the arguments the primary received. -/
def fallbackTranslate (primary : TranslateArgs → Except LLMError String)
    (fallback : Option (TranslateArgs → Except LLMError String))
    (args : TranslateArgs) : Except RouterError String :=
  match primary args with
  | .ok r => .ok r
  | .error e =>
    match fallback with
    | none => .error (.primaryOnly e)
    | some fb =>
      match fb args with
      | .ok r => .ok r
      | .error fallback_error => .error (.bothFailed e fallback_error)

/-! ## Helper lemmas -/

/-- `dropWhile` is idempotent. -/
theorem dropWhile_idem (p : Char → Bool) (l : List Char) :
    (l.dropWhile p).dropWhile p = l.dropWhile p := by
  induction l with
  | nil => rfl
  | cons a t ih =>
    by_cases h : p a
    · simp [List.dropWhile_cons, h, ih]
    · simp [List.dropWhile_cons, h]

/-- A prefix of a list with no leading `p`-element has no leading
`p`-element. -/
theorem dropWhile_eq_self_of_prefix (p : Char → Bool) {s t : List Char}
    (hpre : s <+: t) (ht : t.dropWhile p = t) : s.dropWhile p = s := by
  cases s with
  | nil => rfl
  | cons a s2 =>
    obtain ⟨u, hu⟩ := hpre
    subst hu
    simp only [List.cons_append] at ht
    by_cases h : p a
    · exfalso
      rw [List.dropWhile_cons_of_pos h] at ht
      have := congrArg List.length ht
      have hle := (List.dropWhile_sublist (l := s2 ++ u) p).length_le
      simp only [List.length_cons, List.length_append] at this hle
      omega
    · exact List.dropWhile_cons_of_neg h

/-- Python `strip` is idempotent. -/
theorem pyStripList_idem (l : List Char) :
    pyStripList (pyStripList l) = pyStripList l := by
  set p := pyWhitespace
  have step1 : (pyStripList l).dropWhile p = pyStripList l := by
    have hsuffix : (((l.dropWhile p).reverse.dropWhile p)) <:+
        (l.dropWhile p).reverse := List.dropWhile_suffix p
    have hpre : pyStripList l <+: l.dropWhile p := by
      have := List.reverse_prefix.mpr hsuffix
      simpa [pyStripList] using this
    exact dropWhile_eq_self_of_prefix p hpre (dropWhile_idem p l)
  have step2 : ((pyStripList l).reverse).dropWhile p =
      (pyStripList l).reverse := by
    simp only [pyStripList, List.reverse_reverse]
    exact dropWhile_idem p _
  calc pyStripList (pyStripList l)
      = (((pyStripList l).dropWhile p).reverse.dropWhile p).reverse := rfl
    _ = ((pyStripList l).reverse.dropWhile p).reverse := by rw [step1]
    _ = ((pyStripList l).reverse).reverse := by rw [step2]
    _ = pyStripList l := List.reverse_reverse _

/-- A string made from a nonempty character list is not the empty string. -/
theorem mk_ne_empty {l : List Char} (h : l ≠ []) : (⟨l⟩ : String) ≠ "" := by
  intro heq
  exact h (by simpa using congrArg String.data heq)

/-! ## Claims -/

/-- C1: the store's `clear()` removes all cached entries unconditionally for
every initialized store state, and the `clear_cache()` endpoint performs
this wipe and reports it; afterwards `get k` is absent for every key. -/
theorem c1_clear_cache_wipes (c : TranslationCache) (rows : CacheDb)
    (h : c.db = some rows) :
    ∃ c2, clear_cache c = .ok (c2, "cleared") ∧
      (c2.clear = .ok ⟨some []⟩) ∧ ∀ k, c2.get k = .ok none := by
  refine ⟨⟨some []⟩, ?_, rfl, ?_⟩
  · simp [clear_cache, TranslationCache.clear, h, Except.map]
  · intro k
    simp [TranslationCache.get, dbFind]

/-- Witness for C1 at a one-row store. -/
theorem c1_clear_cache_wipes_witness :
    ∃ c2, clear_cache ⟨some [("k1", ⟨"Hello", "English", "German", "Hallo", 5⟩)]⟩ =
        .ok (c2, "cleared") ∧
      (c2.clear = .ok ⟨some []⟩) ∧ ∀ k, c2.get k = .ok none :=
  c1_clear_cache_wipes ⟨some [("k1", ⟨"Hello", "English", "German", "Hallo", 5⟩)]⟩
    [("k1", ⟨"Hello", "English", "German", "Hallo", 5⟩)] rfl

/-- C2: key derivation is the hex-encoded SHA-256 digest of
`text|source|target|context` with a missing context normalized to the empty
string, so deriving with `some ""` and with `none` agree (and the function
is deterministic by construction). -/
theorem c2_generate_key_spec (text src tgt : String) (ctx : Option String) :
    TranslationCache.generate_key text src tgt ctx =
      specDeriveKey text src tgt ctx ∧
    TranslationCache.generate_key text src tgt ctx =
      sha256Hex (text ++ "|" ++ src ++ "|" ++ tgt ++ "|" ++ ctx.getD "") ∧
    TranslationCache.generate_key text src tgt (some "") =
      TranslationCache.generate_key text src tgt none := by
  refine ⟨?_, ?_, rfl⟩ <;> cases ctx <;> rfl

/-- C3: on an initialized store, `set` then `get` with the same key returns
exactly the stored translation, and a second `set` on the same key followed
by `get` returns the newest value. -/
theorem c3_set_get_lww (c : TranslationCache) (rows : CacheDb)
    (h : c.db = some rows)
    (key text src tgt tr1 tr2 : String) (t1 t2 : Int) :
    (∃ c1, c.set key text src tgt tr1 t1 = .ok c1 ∧
      c1.get key = .ok (some tr1)) ∧
    (∃ c1 c2, c.set key text src tgt tr1 t1 = .ok c1 ∧
      c1.set key text src tgt tr2 t2 = .ok c2 ∧
      c2.get key = .ok (some tr2)) := by
  obtain ⟨cdb⟩ := c
  change cdb = some rows at h
  subst h
  constructor
  · refine ⟨_, rfl, ?_⟩
    simp [TranslationCache.get, dbFind, List.find?]
  · refine ⟨_, _, rfl, rfl, ?_⟩
    simp [TranslationCache.get, dbFind, List.find?]

/-- Witness for C3: the spec example, `"Hallo"` overwritten by
`"Guten Tag"`. -/
theorem c3_set_get_lww_witness :
    (∃ c1, TranslationCache.set ⟨some []⟩ "k" "Hello" "English" "German"
        "Hallo" 10 = .ok c1 ∧ c1.get "k" = .ok (some "Hallo")) ∧
    (∃ c1 c2, TranslationCache.set ⟨some []⟩ "k" "Hello" "English" "German"
        "Hallo" 10 = .ok c1 ∧
      c1.set "k" "Hello" "English" "German" "Guten Tag" 11 = .ok c2 ∧
      c2.get "k" = .ok (some "Guten Tag")) :=
  c3_set_get_lww ⟨some []⟩ [] rfl "k" "Hello" "English" "German" "Hallo"
    "Guten Tag" 10 11

/-- C5: the router returns the primary's success; on primary failure it
calls the configured fallback once with identical arguments and returns its
success; when both fail the error carries both failures; with no fallback
the primary error propagates unchanged. -/
theorem c5_fallback_router (primary fb : TranslateArgs → Except LLMError String)
    (args : TranslateArgs) :
    (∀ r, primary args = .ok r →
      fallbackTranslate primary (some fb) args = .ok r ∧
      fallbackTranslate primary none args = .ok r) ∧
    (∀ e r, primary args = .error e → fb args = .ok r →
      fallbackTranslate primary (some fb) args = .ok r) ∧
    (∀ e e2, primary args = .error e → fb args = .error e2 →
      fallbackTranslate primary (some fb) args = .error (.bothFailed e e2)) ∧
    (∀ e, primary args = .error e →
      fallbackTranslate primary none args = .error (.primaryOnly e)) := by
  refine ⟨?_, ?_, ?_, ?_⟩
  · intro r hp
    constructor <;> simp [fallbackTranslate, hp]
  · intro e r hp hf
    simp [fallbackTranslate, hp, hf]
  · intro e e2 hp hf
    simp [fallbackTranslate, hp, hf]
  · intro e hp
    simp [fallbackTranslate, hp]

/-- Witness for C5: failing primary, succeeding fallback. -/
theorem c5_fallback_router_witness :
    fallbackTranslate (fun _ => .error .providerMalformed)
      (some (fun _ => .ok "Hallo")) ⟨"Hello", "English", "German", none⟩ =
      .ok "Hallo" :=
  (c5_fallback_router (fun _ => .error .providerMalformed)
    (fun _ => .ok "Hallo") ⟨"Hello", "English", "German", none⟩).2.1
    .providerMalformed "Hallo" rfl rfl

/-- C9 counterexample: `get_size` invoked before `initialize()` does not
fail fast: the source has no initialization check there and returns 0 for a
missing file. -/
theorem c9_counterexample :
    TranslationCache.get_size ⟨none⟩ false 0 = .ok 0 := rfl

/-- C9 as amended: `get`, `set` and `clear_expired` invoked before
`initialize()` fail fast with the `RuntimeError`, while `get_size` performs
no initialization check and reports the on-disk size (0 when the file does
not exist). -/
theorem c9_amended_fail_fast (k text src tgt tr : String) (ttl now : Int)
    (fileExists : Bool) (fileSize : Nat) :
    (⟨none⟩ : TranslationCache).get k =
      .error (.runtimeError "Database not initialized") ∧
    (⟨none⟩ : TranslationCache).set k text src tgt tr now =
      .error (.runtimeError "Database not initialized") ∧
    (⟨none⟩ : TranslationCache).clear_expired ttl now =
      .error (.runtimeError "Database not initialized") ∧
    (⟨none⟩ : TranslationCache).get_size fileExists fileSize =
      .ok (if fileExists then fileSize else 0) :=
  ⟨rfl, rfl, rfl, rfl⟩

/-- The claim's failure conditions on a context string: blank after
stripping, or sanitized to empty by the character filter, or longer than
`MAX_CONTEXT_LENGTH` after sanitization. -/
def contextSanitizationFails (c : String) : Prop :=
  pyStrip c = "" ∨ sanitizedChars c = [] ∨
    (sanitizedChars c).length > MAX_CONTEXT_LENGTH

/-- C10: a context that fails sanitization never raises: it is silently
replaced by `none`, the whole sanitized request equals the request with no
context at all, and the derived cache key is the no-context key. -/
theorem c10_context_failure_is_silent (ctext : String)
    (h : contextSanitizationFails ctext) (text src tgt : String)
    (supported : List String) (maxLen : Nat) :
    sanitize_context_input (some ctext) = none ∧
    sanitize_translation_request text src tgt (some ctext) supported maxLen =
      sanitize_translation_request text src tgt none supported maxLen ∧
    TranslationCache.generate_key text src tgt
        (sanitize_context_input (some ctext)) =
      TranslationCache.generate_key text src tgt none := by
  have hnone : sanitize_context_input (some ctext) = none := by
    unfold sanitize_context_input
    by_cases hblank : pyStrip ctext = ""
    · simp [hblank]
    · have hcne : ctext ≠ "" := by
        intro he
        exact hblank (by rw [he]; rfl)
      rcases h with h | h | h
      · exact absurd h hblank
      · simp [hblank, sanitize_text_input, hcne, h]
      · have hne : sanitizedChars ctext ≠ [] := by
          intro he
          rw [he] at h
          simp [MAX_CONTEXT_LENGTH] at h
        simp [hblank, sanitize_text_input, hcne, hne, h]
  refine ⟨hnone, ?_, by rw [hnone]⟩
  unfold sanitize_translation_request
  rw [hnone]
  rfl

/-- Witness for C10 at the blank context `" "`. -/
theorem c10_context_failure_is_silent_witness :
    sanitize_context_input (some " ") = none ∧
    sanitize_translation_request "Hello" "English" "German" (some " ")
        ["English", "German"] 5000 =
      sanitize_translation_request "Hello" "English" "German" none
        ["English", "German"] 5000 ∧
    TranslationCache.generate_key "Hello" "English" "German"
        (sanitize_context_input (some " ")) =
      TranslationCache.generate_key "Hello" "English" "German" none :=
  c10_context_failure_is_silent " " (Or.inl (by decide)) "Hello" "English"
    "German" ["English", "German"] 5000

/-- The retry loop starts at most `fuel` further attempts. -/
theorem translateGo_attempts_le (f : Nat → HttpAttempt) (orig : String) :
    ∀ (fuel i : Nat) (last : Option HttpAttempt) (w : List Nat),
      (translateGo f orig fuel i last w).attemptsMade ≤ i + fuel := by
  intro fuel
  induction fuel with
  | zero =>
    intro i last w
    simp [translateGo]
  | succ n ih =>
    intro i last w
    simp only [translateGo]
    cases f i with
    | success content =>
      cases h : cleanResponse content orig <;> simp [h]
    | timeout =>
      by_cases h0 : 0 < n
      · simp only [h0, if_true]
        have := ih (i + 1) (some .timeout) (w ++ [exponentialBackoff i])
        omega
      · simp only [h0, if_false]
        have := ih (i + 1) (some .timeout) w
        omega
    | httpStatus code => simp
    | malformed => simp
    | unexpected => simp

/-- C4: up to 3 attempts in total; three timeouts exhaust the retries after
exactly 3 attempts with the capped exponential waits 1s then 2s between
them, failing with the after-loop error that carries the last timeout;
non-timeout failures on the first attempt terminate immediately with no
retry and no wait; the backoff formula is `min(2 ** attempt, 8)`. -/
theorem c4_retry_policy (f : Nat → HttpAttempt) (orig : String) :
    ((∀ i, i < DEFAULT_MAX_RETRIES → f i = .timeout) →
      clientTranslate f orig =
        ⟨.error (.exhaustedRetries (some .timeout)), 3, [1, 2]⟩) ∧
    (∀ code, f 0 = .httpStatus code →
      clientTranslate f orig = ⟨.error (.providerHttpError code), 1, []⟩) ∧
    (f 0 = .malformed →
      clientTranslate f orig = ⟨.error .providerMalformed, 1, []⟩) ∧
    (f 0 = .unexpected →
      clientTranslate f orig = ⟨.error .unexpectedError, 1, []⟩) ∧
    (clientTranslate f orig).attemptsMade ≤ DEFAULT_MAX_RETRIES ∧
    (∀ a, exponentialBackoff a = min (2 ^ a) 8) := by
  refine ⟨?_, ?_, ?_, ?_, ?_, fun a => rfl⟩
  · intro h
    have h0 := h 0 (by decide)
    have h1 := h 1 (by decide)
    have h2 := h 2 (by decide)
    simp [clientTranslate, DEFAULT_MAX_RETRIES, translateGo, h0, h1, h2,
      exponentialBackoff]
  · intro code h0
    simp [clientTranslate, DEFAULT_MAX_RETRIES, translateGo, h0]
  · intro h0
    simp [clientTranslate, DEFAULT_MAX_RETRIES, translateGo, h0]
  · intro h0
    simp [clientTranslate, DEFAULT_MAX_RETRIES, translateGo, h0]
  · exact translateGo_attempts_le f orig DEFAULT_MAX_RETRIES 0 none []

/-- Witness for C4: an always-timing-out transport. -/
theorem c4_retry_policy_witness :
    clientTranslate (fun _ => .timeout) "Hello" =
      ⟨.error (.exhaustedRetries (some .timeout)), 3, [1, 2]⟩ :=
  (c4_retry_policy (fun _ => .timeout) "Hello").1 (fun _ _ => rfl)

/-- Wrap a string in one layer of single quotes. -/
def sqWrap (s : String) : String := ⟨sq :: s.data ++ [sq]⟩

/-- Wrap a string in one layer of double quotes. -/
def dqWrap (s : String) : String := ⟨dq :: s.data ++ [dq]⟩

/-- The claim's notion of a quote-wrapped string: symmetric double- or
single-quotes around the whole string. -/
def claimQuoteWrapped (s : String) : Bool :=
  startsEndsWith s.data dq || startsEndsWith s.data sq

/-- C6 counterexample: with the original `'Hello'` wrapped in symmetric
single quotes — quote-wrapped in the claim's sense — the quotes of the
response `'Hallo'` are nevertheless stripped, because the source only
checks the original for double quotes. -/
theorem c6_counterexample :
    claimQuoteWrapped (sqWrap "Hello") = true ∧
    cleanResponse (sqWrap "Hallo") (sqWrap "Hello") = .ok "Hallo" := by
  constructor
  · decide
  · decide

/-- C6 as amended: the stage strips exactly one layer of the matching
quote characters (then strips whitespace) whenever the cleaned text at that
stage is wrapped in symmetric double- or single-quotes and the original was
not wrapped in **double** quotes; when the original is double-quote-wrapped
the text passes through unchanged. The claim's two double-quote examples
hold end to end. -/
theorem c6_quote_symmetry_amended (raw orig : String) :
    (startsEndsWith orig.data dq = false →
      (startsEndsWith (verbosePrefixStage (afterTagStrip raw) orig.data) dq ||
       startsEndsWith (verbosePrefixStage (afterTagStrip raw) orig.data) sq) =
        true →
      quoteSymmetryStage (verbosePrefixStage (afterTagStrip raw) orig.data)
          orig.data =
        pyStripList
          (((verbosePrefixStage (afterTagStrip raw) orig.data).drop
            1).dropLast)) ∧
    (startsEndsWith orig.data dq = true →
      quoteSymmetryStage (verbosePrefixStage (afterTagStrip raw) orig.data)
          orig.data =
        verbosePrefixStage (afterTagStrip raw) orig.data) ∧
    cleanResponse (dqWrap "Hallo") "Hello" = .ok "Hallo" ∧
    cleanResponse (dqWrap "Hallo") (dqWrap "Hello") = .ok (dqWrap "Hallo") := by
  refine ⟨?_, ?_, by decide, by decide⟩
  · intro ho hc
    simp [quoteSymmetryStage, ho, hc]
  · intro ho
    simp [quoteSymmetryStage, ho]

/-- Witness for C6 as amended: response `"Hallo"` against the unquoted
original `Hello`. -/
theorem c6_quote_symmetry_amended_witness :
    quoteSymmetryStage
        (verbosePrefixStage (afterTagStrip (dqWrap "Hallo")) "Hello".data)
        "Hello".data =
      pyStripList
        (((verbosePrefixStage (afterTagStrip (dqWrap "Hallo"))
          "Hello".data).drop 1).dropLast) :=
  (c6_quote_symmetry_amended (dqWrap "Hallo") "Hello").1 (by decide) (by decide)

/-- C7: the normalizer returns a nonempty, whitespace-trimmed string, or
fails with an empty-output error exactly when the working text is empty
after the initial trim, empty after reasoning-markup/tag stripping and
re-trim, or empty after the final trim. -/
theorem c7_normalizer_empty_output (raw orig : String) :
    (∀ s, cleanResponse raw orig = .ok s → s ≠ "" ∧ pyStrip s = s) ∧
    ((∃ m, cleanResponse raw orig = .error (.emptyOutput m)) ↔
      (initialTrim raw = [] ∨ afterTagStrip raw = [] ∨
        finalCleaned raw orig = [])) := by
  unfold cleanResponse
  split_ifs with h1 h2 h3
  · exact ⟨fun _ hs => (nomatch hs), by simp [h1]⟩
  · exact ⟨fun _ hs => (nomatch hs), by simp [h2]⟩
  · exact ⟨fun _ hs => (nomatch hs), by simp [h3]⟩
  · refine ⟨?_, ?_⟩
    · intro s hs
      cases hs
      refine ⟨mk_ne_empty h3, ?_⟩
      have hfix : pyStripList (finalCleaned raw orig) = finalCleaned raw orig := by
        unfold finalCleaned
        exact pyStripList_idem _
      simp [pyStrip, hfix]
    · simp [h1, h2, h3]

/-- A key outside the table is never found. -/
theorem dbFind_eq_none_of_not_mem (rows : CacheDb) (k : String)
    (h : k ∉ rows.map Prod.fst) : dbFind rows k = none := by
  have hfind : rows.find? (fun p => p.1 == k) = none := by
    rw [List.find?_eq_none]
    intro x hx hbeq
    exact h (List.mem_map.mpr ⟨x, hx, by simpa using hbeq⟩)
  simp [dbFind, hfind]

/-- With unique keys, a lookup after the expiry deletion finds the old row
exactly when it was present and not expired. -/
theorem dbFind_clearExpiredRows (rows : CacheDb) (cutoff : Int) (k : String)
    (hnd : (rows.map Prod.fst).Nodup) :
    dbFind (clearExpiredRows rows cutoff) k =
      match dbFind rows k with
      | none => none
      | some r => if r.timestamp < cutoff then none else some r := by
  induction rows with
  | nil => simp [clearExpiredRows, dbFind]
  | cons p rest ih =>
    obtain ⟨key0, row0⟩ := p
    simp only [List.map_cons, List.nodup_cons] at hnd
    obtain ⟨hnotin, hnd2⟩ := hnd
    have hrec := ih hnd2
    by_cases ht : row0.timestamp < cutoff
    · have hdrop : clearExpiredRows ((key0, row0) :: rest) cutoff =
          clearExpiredRows rest cutoff := by
        simp [clearExpiredRows, List.filter_cons, ht]
      by_cases hk : key0 = k
      · subst hk
        have h1 : dbFind (clearExpiredRows rest cutoff) key0 = none := by
          apply dbFind_eq_none_of_not_mem
          intro hmem
          exact hnotin
            (((List.filter_sublist _).map Prod.fst).subset hmem)
        have h2 : dbFind ((key0, row0) :: rest) key0 = some row0 := by
          simp [dbFind, List.find?_cons]
        rw [hdrop, h1, h2]
        simp [ht]
      · have hbeq : (key0 == k) = false := by simpa using hk
        have h2 : dbFind ((key0, row0) :: rest) k = dbFind rest k := by
          simp [dbFind, List.find?_cons, hbeq]
        rw [hdrop, h2, hrec]
    · have hkeep : clearExpiredRows ((key0, row0) :: rest) cutoff =
          (key0, row0) :: clearExpiredRows rest cutoff := by
        simp [clearExpiredRows, List.filter_cons, ht]
      by_cases hk : key0 = k
      · subst hk
        have hL : dbFind ((key0, row0) :: clearExpiredRows rest cutoff) key0 =
            some row0 := by
          simp [dbFind, List.find?_cons]
        have h2 : dbFind ((key0, row0) :: rest) key0 = some row0 := by
          simp [dbFind, List.find?_cons]
        rw [hkeep, hL, h2]
        simp [ht]
      · have hbeq : (key0 == k) = false := by simpa using hk
        have hL : dbFind ((key0, row0) :: clearExpiredRows rest cutoff) k =
            dbFind (clearExpiredRows rest cutoff) k := by
          simp [dbFind, List.find?_cons, hbeq]
        have h2 : dbFind ((key0, row0) :: rest) k = dbFind rest k := by
          simp [dbFind, List.find?_cons, hbeq]
        rw [hkeep, hL, h2, hrec]

/-- C8: on an initialized store with unique keys, `clear_expired` deletes
exactly the entries with `timestamp < now - ttl_days * 86400` and retains
all newer entries: afterwards a `get` finds a key exactly when its row was
present and not expired. -/
theorem c8_clear_expired_exact (c : TranslationCache) (rows : CacheDb)
    (h : c.db = some rows) (hnd : (rows.map Prod.fst).Nodup)
    (ttl_days now : Int) (k : String) :
    ∃ c2, c.clear_expired ttl_days now = .ok c2 ∧
      c2.get k = .ok
        (match dbFind rows k with
         | none => none
         | some r =>
             if r.timestamp < now - ttl_days * 86400 then none
             else some r.translation) := by
  obtain ⟨cdb⟩ := c
  change cdb = some rows at h
  subst h
  refine ⟨_, rfl, ?_⟩
  have hc : now - ttl_days * (24 * 60 * 60) = now - ttl_days * 86400 := by
    norm_num
  show Except.ok ((dbFind (clearExpiredRows rows
      (now - ttl_days * 24 * 60 * 60)) k).map (·.translation)) = _
  rw [show now - ttl_days * 24 * 60 * 60 = now - ttl_days * 86400 by ring_nf]
  rw [dbFind_clearExpiredRows rows (now - ttl_days * 86400) k hnd]
  cases dbFind rows k with
  | none => rfl
  | some r =>
    by_cases ht : r.timestamp < now - ttl_days * 86400
    · simp [ht]
    · simp [ht]

/-- Witness for C8: the spec example with TTL 30 days — the entry backdated
31 days is removed, the entry written now is retained. -/
theorem c8_clear_expired_exact_witness :
    (∃ c2, TranslationCache.clear_expired
        ⟨some [("old", ⟨"Old", "English", "German", "Alt",
                 1760000000 - 31 * 86400⟩),
               ("new", ⟨"New", "English", "German", "Neu", 1760000000⟩)]⟩
        30 1760000000 = .ok c2 ∧ c2.get "old" = .ok none) ∧
    (∃ c2, TranslationCache.clear_expired
        ⟨some [("old", ⟨"Old", "English", "German", "Alt",
                 1760000000 - 31 * 86400⟩),
               ("new", ⟨"New", "English", "German", "Neu", 1760000000⟩)]⟩
        30 1760000000 = .ok c2 ∧ c2.get "new" = .ok (some "Neu")) := by
  constructor
  · exact c8_clear_expired_exact _ _ rfl (by decide) 30 1760000000 "old"
  · exact c8_clear_expired_exact _ _ rfl (by decide) 30 1760000000 "new"

/-- Witness for C7: a padded response that trims to `Hallo`. -/
theorem c7_normalizer_empty_output_witness :
    ("Hallo" : String) ≠ "" ∧ pyStrip "Hallo" = "Hallo" :=
  (c7_normalizer_empty_output "  Hallo  " "Hello").1 "Hallo" (by decide)

end ContextTranslator
